import Mathlib

/-!
Shallow embedding of the askleaf-livechat-server core (the socket.io event
handlers, the in-memory `sessions` maps, the Supabase `livechat` table access
helpers, and the periodic eviction sweep).  JavaScript `Map`s are modelled as
association lists with JS-`Map.set` semantics (`setA` overwrites the first
binding for the key, appends otherwise); the Supabase table is an association
list keyed by `live_chat_id`.  Store calls may fail; each handler takes boolean
oracles (`readFails`, `writeFails`) deciding whether a given store call throws,
mirroring the `if (error) throw error` checks in the source.  Wall-clock reads
(`new Date()` / `Date.now()`) are supplied as an explicit `now : Int` parameter
measured in milliseconds.  Each handler returns the new server state, the list
of socket.io emissions it performed (in order), and the list of store
operations it issued (in order).
-/

namespace LiveChat

/-- A chat message as built in the `message:send` handler:
`{ text, sender, timestamp, convId }`. -/
structure Message where
  text : String
  sender : String
  timestamp : Int
  convId : String
deriving DecidableEq

/-- One row of the `livechat` table (minus the `live_chat_id` key, which is the
association-list key).  Columns not supplied by an insert are `none`. -/
structure StoreRow where
  customer_name : Option String
  chatbot_id : Option String
  user_id : Option String
  live_message : List Message
  created_at : Option Int
deriving DecidableEq

/-- Value stored in `sessions.customers` by the `customer:join` handler. -/
structure CustomerSession where
  convId : String
  chatbotId : String
  userId : String
  customerEmail : String
deriving DecidableEq

/-- Value stored in `sessions.agents` by the `agent:join` handler. -/
structure AgentSession where
  convId : String
deriving DecidableEq

/-- Value stored in `sessions.conversations` (the in-memory conversation
index): `{ convId, chatbotId, customerEmail, timestamp, lastMessage }`. -/
structure ConversationSummary where
  convId : String
  chatbotId : String
  customerEmail : String
  timestamp : Int
  lastMessage : Option Message
deriving DecidableEq

/-- Payload of a `customer:join` event. -/
structure JoinPayload where
  convId : String
  chatbotId : String
  userId : String
  customerEmail : String
deriving DecidableEq

/-- Payload of a `message:send` event.  The `timestamp` field is the
client-supplied timestamp, which the handler shadows with its own
server-side `new Date().toISOString()`. -/
structure SendPayload where
  convId : String
  chatbotId : String
  userId : String
  text : String
  sender : String
  timestamp : Int
deriving DecidableEq

/-- The whole in-memory server state: the three `sessions` maps, the socket.io
room membership (pairs of socket id and room name), and the external
`livechat` table keyed by `live_chat_id`. -/
structure ServerState where
  customers : List (String × CustomerSession)
  agents : List (String × AgentSession)
  conversations : List (String × ConversationSummary)
  rooms : List (String × String)
  store : List (String × StoreRow)
deriving DecidableEq

/-- A socket.io emission performed by a handler. -/
inductive Emission where
  | errorTo (sid : String) (reason : String)
  | chatJoined (sid : String) (convId : String) (customerEmail : String)
  | chatUpdated (summaries : List ConversationSummary)
  | messageReceived (room : String) (message : Message)
deriving DecidableEq

/-- A store (Supabase) operation issued by a handler, recorded when the call is
made (the call may still return an error). `upsertJoin` is the
conversation-creating upsert in `customer:join`; `upsertSend` is the
log-replacing upsert in `message:send`. -/
inductive StoreOp where
  | read (convId : String)
  | upsertJoin (convId : String)
  | upsertSend (convId : String)
deriving DecidableEq

/-- Result of handling one event: new state, emissions in order, store
operations in order. -/
structure StepResult where
  state : ServerState
  emissions : List Emission
  storeOps : List StoreOp
deriving DecidableEq

/-- First binding for a key in an association list (JS `Map.get`). -/
def lookupA {α : Type} : List (String × α) → String → Option α
  | [], _ => none
  | (k, v) :: rest, key => if k = key then some v else lookupA rest key

/-- JS `Map.set`: overwrite the first binding for the key, append otherwise. -/
def setA {α : Type} : List (String × α) → String → α → List (String × α)
  | [], key, v => [(key, v)]
  | (k, w) :: rest, key, v =>
      if k = key then (key, v) :: rest else (k, w) :: setA rest key v

/-- JS `Map.delete`: remove the binding(s) for the key. -/
def removeA {α : Type} (l : List (String × α)) (key : String) : List (String × α) :=
  l.filter (fun kv => kv.1 ≠ key)

/-- Number of bindings an association list holds for a key. -/
def countKey {α : Type} (l : List (String × α)) (key : String) : Nat :=
  (l.filter (fun kv => kv.1 = key)).length

/-- JS `socket.join(room)`: room membership is a set (joining twice is a
no-op). -/
def joinRoom (rooms : List (String × String)) (sid room : String) :
    List (String × String) :=
  if (sid, room) ∈ rooms then rooms else (sid, room) :: rooms

/-- The message log currently recorded for a conversation: `live_message` of
the row if one exists, the empty log otherwise (what the source's
`getConversationMessages` returns on a successful query). -/
def readLogPure (store : List (String × StoreRow)) (convId : String) :
    List Message :=
  match lookupA store convId with
  | some row => row.live_message
  | none => []

/-- The source's `getConversationMessages(convId)`: queries `livechat` for
`live_message` where `live_chat_id = convId`; throws if the query errors;
otherwise returns the first row's log, or an empty log if no row exists. -/
def getConversationMessages (readFails : Bool)
    (store : List (String × StoreRow)) (convId : String) :
    Except String (List Message) :=
  if readFails then Except.error "store read error"
  else Except.ok (readLogPure store convId)

/-- Whether a store-adapter result is a success. -/
def isOkE {α : Type} : Except String α → Bool
  | Except.ok _ => true
  | Except.error _ => false

/-- Row written by the `customer:join` upsert (`onConflict: live_chat_id`):
sets `customer_name`, `chatbot_id`, an empty `live_message`, and `created_at`;
a conflicting row keeps its other columns. -/
def upsertJoinRow (old : Option StoreRow) (p : JoinPayload) (now : Int) :
    StoreRow :=
  match old with
  | some r =>
      { r with customer_name := some p.customerEmail,
               chatbot_id := some p.chatbotId,
               live_message := [],
               created_at := some now }
  | none =>
      { customer_name := some p.customerEmail,
        chatbot_id := some p.chatbotId,
        user_id := none,
        live_message := [],
        created_at := some now }

/-- Row written by the `message:send` upsert (`onConflict: live_chat_id`):
sets `live_message`, `chatbot_id`, `user_id`; a conflicting row keeps its
other columns. -/
def upsertSendRow (old : Option StoreRow) (p : SendPayload)
    (msgs : List Message) : StoreRow :=
  match old with
  | some r =>
      { r with live_message := msgs,
               chatbot_id := some p.chatbotId,
               user_id := some p.userId }
  | none =>
      { customer_name := none,
        chatbot_id := some p.chatbotId,
        user_id := some p.userId,
        live_message := msgs,
        created_at := none }

/-- The `customer:join` handler.  Reads the current log; stores the customer
session; if the log was empty, upserts a fresh row and inserts a summary into
the in-memory index; joins the room; emits `chat:updated` to all and
`chat:joined` to the sender.  Any thrown store error is caught and surfaced as
a generic `error` emission to the sender. -/
def customerJoin (st : ServerState) (sid : String) (p : JoinPayload)
    (now : Int) (readFails writeFails : Bool) : StepResult :=
  match getConversationMessages readFails st.store p.convId with
  | Except.error _ =>
      ⟨st, [Emission.errorTo sid "Failed to join chat session"],
       [StoreOp.read p.convId]⟩
  | Except.ok existingMessages =>
      let isNewConversation := existingMessages.isEmpty
      let customers1 :=
        setA st.customers sid ⟨p.convId, p.chatbotId, p.userId, p.customerEmail⟩
      let st1 := { st with customers := customers1 }
      if isNewConversation then
        if writeFails then
          ⟨st1, [Emission.errorTo sid "Failed to join chat session"],
           [StoreOp.read p.convId, StoreOp.upsertJoin p.convId]⟩
        else
          let store2 :=
            setA st1.store p.convId (upsertJoinRow (lookupA st1.store p.convId) p now)
          let conversations2 :=
            setA st1.conversations p.convId
              ⟨p.convId, p.chatbotId, p.customerEmail, now, none⟩
          let st2 := { st1 with store := store2, conversations := conversations2 }
          let st3 := { st2 with rooms := joinRoom st2.rooms sid ("conv-" ++ p.convId) }
          ⟨st3,
           [Emission.chatUpdated (st3.conversations.map Prod.snd),
            Emission.chatJoined sid p.convId p.customerEmail],
           [StoreOp.read p.convId, StoreOp.upsertJoin p.convId]⟩
      else
        let st2 := { st1 with rooms := joinRoom st1.rooms sid ("conv-" ++ p.convId) }
        ⟨st2,
         [Emission.chatUpdated (st2.conversations.map Prod.snd),
          Emission.chatJoined sid p.convId p.customerEmail],
         [StoreOp.read p.convId]⟩

/-- The `agent:join` handler: reads the log (validation only), stores the
agent session, joins the room; no emissions on success; a store error is
caught and surfaced as a generic `error` emission. -/
def agentJoin (st : ServerState) (sid : String) (convId : String)
    (readFails : Bool) : StepResult :=
  match getConversationMessages readFails st.store convId with
  | Except.error _ =>
      ⟨st, [Emission.errorTo sid "Failed to join conversation"],
       [StoreOp.read convId]⟩
  | Except.ok _ =>
      ⟨{ st with agents := setA st.agents sid ⟨convId⟩,
                 rooms := joinRoom st.rooms sid ("conv-" ++ convId) },
       [], [StoreOp.read convId]⟩

/-- The `message:send` handler.  Builds a message with a server-assigned
timestamp (the client-supplied `p.timestamp` is shadowed and never used),
reads the current log, appends, upserts the full updated log; on success
broadcasts `message:received` to the conversation room, then — only if the
conversation is present in the in-memory index — updates its `lastMessage`
and `timestamp` and emits `chat:updated` to all.  Any thrown store error is
caught and surfaced as a generic `error` emission to the sender. -/
def messageSend (st : ServerState) (sid : String) (p : SendPayload)
    (now : Int) (readFails writeFails : Bool) : StepResult :=
  let message : Message := ⟨p.text, p.sender, now, p.convId⟩
  match getConversationMessages readFails st.store p.convId with
  | Except.error _ =>
      ⟨st, [Emission.errorTo sid "Failed to send message"],
       [StoreOp.read p.convId]⟩
  | Except.ok currentMessages =>
      let updatedMessages := currentMessages ++ [message]
      if writeFails then
        ⟨st, [Emission.errorTo sid "Failed to send message"],
         [StoreOp.read p.convId, StoreOp.upsertSend p.convId]⟩
      else
        let store1 :=
          setA st.store p.convId
            (upsertSendRow (lookupA st.store p.convId) p updatedMessages)
        let st1 := { st with store := store1 }
        match lookupA st1.conversations p.convId with
        | some conversation =>
            let conversation2 :=
              { conversation with lastMessage := some message, timestamp := now }
            let conversations2 := setA st1.conversations p.convId conversation2
            let st2 := { st1 with conversations := conversations2 }
            ⟨st2,
             [Emission.messageReceived ("conv-" ++ p.convId) message,
              Emission.chatUpdated (st2.conversations.map Prod.snd)],
             [StoreOp.read p.convId, StoreOp.upsertSend p.convId]⟩
        | none =>
            ⟨st1,
             [Emission.messageReceived ("conv-" ++ p.convId) message],
             [StoreOp.read p.convId, StoreOp.upsertSend p.convId]⟩

/-- The `disconnect` handler: deletes the customer session if present, then
the agent session if present; no emissions, no store access. -/
def disconnect (st : ServerState) (sid : String) : StepResult :=
  let st1 :=
    match lookupA st.customers sid with
    | some _ => { st with customers := removeA st.customers sid }
    | none => st
  let st2 :=
    match lookupA st1.agents sid with
    | some _ => { st1 with agents := removeA st1.agents sid }
    | none => st1
  ⟨st2, [], []⟩

/-- One run of the eviction `setInterval` body: delete every in-memory
conversation whose timestamp is strictly older than `now` minus one hour, then
emit `chat:updated` with the remaining summaries.  Purely in-memory: the store
is never touched. -/
def evictionSweep (st : ServerState) (now : Int) : StepResult :=
  let oneHourAgo := now - 60 * 60 * 1000
  let conversations2 :=
    st.conversations.filter (fun kv => !decide (kv.2.timestamp < oneHourAgo))
  let st2 := { st with conversations := conversations2 }
  ⟨st2, [Emission.chatUpdated (conversations2.map Prod.snd)], []⟩

/-- An inbound event at the coordinator, with its failure oracles and the
wall-clock time at which it is handled. -/
inductive Event where
  | evCustomerJoin (sid : String) (p : JoinPayload) (now : Int)
      (readFails writeFails : Bool)
  | evAgentJoin (sid : String) (convId : String) (readFails : Bool)
  | evMessageSend (sid : String) (p : SendPayload) (now : Int)
      (readFails writeFails : Bool)
  | evDisconnect (sid : String)
  | evSweep (now : Int)
deriving DecidableEq

/-- Dispatch one event to its handler. -/
def step (st : ServerState) : Event → StepResult
  | Event.evCustomerJoin sid p now rf wf => customerJoin st sid p now rf wf
  | Event.evAgentJoin sid convId rf => agentJoin st sid convId rf
  | Event.evMessageSend sid p now rf wf => messageSend st sid p now rf wf
  | Event.evDisconnect sid => disconnect st sid
  | Event.evSweep now => evictionSweep st now

/-- Run a sequence of events, threading the state. -/
def runEvents (st : ServerState) : List Event → ServerState
  | [] => st
  | e :: es => runEvents (step st e).state es

/-- Whether an emission list contains a `chat:updated` broadcast. -/
def hasChatUpdated (ems : List Emission) : Bool :=
  ems.any (fun e =>
    match e with
    | Emission.chatUpdated _ => true
    | _ => false)

/-- Number of conversation-creating upserts for a given conversation id in a
trace of store operations. -/
def countCreates (ops : List StoreOp) (convId : String) : Nat :=
  ops.countP (fun op =>
    match op with
    | StoreOp.upsertJoin c => decide (c = convId)
    | _ => false)

/-- One item of a sequential send scenario: the `message:send` payload minus
the conversation id, plus the server clock at handling time. -/
structure SendItem where
  chatbotId : String
  userId : String
  text : String
  sender : String
  clientStamp : Int
  now : Int
deriving DecidableEq

/-- The message the handler builds for one item of a sequential scenario. -/
def itemMessage (convId : String) (it : SendItem) : Message :=
  ⟨it.text, it.sender, it.now, convId⟩

/-- Sequentially handle a list of `message:send` events from one connection to
one conversation, each issued after the previous one completed, with every
store call succeeding (no other writers). -/
def sendSeq (st : ServerState) (sid convId : String) :
    List SendItem → ServerState
  | [] => st
  | it :: rest =>
      sendSeq (messageSend st sid
        ⟨convId, it.chatbotId, it.userId, it.text, it.sender, it.clientStamp⟩
        it.now false false).state sid convId rest

/-- The empty server state (fresh process, empty store). -/
def st0 : ServerState := ⟨[], [], [], [], []⟩

/-- A sample `customer:join` payload for conversation c1. -/
def pJ1 : JoinPayload := ⟨"c1", "b1", "u1", "e1"⟩

/-- A sample `message:send` payload for c1 (client-supplied timestamp 42). -/
def pS1 : SendPayload := ⟨"c1", "b1", "u1", "hi", "customer", 42⟩

/-- A store row for conversation c1 that already holds one message. -/
def row1 : StoreRow :=
  ⟨some "e1", some "b1", none, [⟨"old", "customer", 0, "c1"⟩], some 0⟩

/-- A state whose store already holds a nonempty log for c1 while the
in-memory index is empty (as after a process restart or an eviction). -/
def stExisting : ServerState := ⟨[], [], [], [], [("c1", row1)]⟩

/-- A summary for c1 as a join at time 0 would create it. -/
def sum1 : ConversationSummary := ⟨"c1", "b1", "e1", 0, none⟩

/-- A state where c1 is present in the in-memory index and has a stored
row. -/
def stIndexed : ServerState := ⟨[], [], [("c1", sum1)], [], [("c1", row1)]⟩

/-- First join of the double-join scenario (empty store, connection s1). -/
def joinOnce : StepResult := customerJoin st0 "s1" pJ1 0 false false

/-- Second join of the double-join scenario: same conversation, different
connection s2, after the first join completed. -/
def joinAgain : StepResult := customerJoin joinOnce.state "s2" pJ1 1 false false

/-- Event list for the no-re-add scenario: join, send, sweep, agent join and
a disconnect, all against a conversation with nonempty stored history. -/
def evs10 : List Event :=
  [Event.evCustomerJoin "s1" pJ1 10 false false,
   Event.evMessageSend "s2" pS1 20 false false,
   Event.evSweep 30,
   Event.evAgentJoin "s3" "c1" false,
   Event.evDisconnect "s1"]

theorem lookupA_setA_self {α : Type} (l : List (String × α)) (k : String)
    (v : α) : lookupA (setA l k v) k = some v := by
  induction l with
  | nil => simp [setA, lookupA]
  | cons kv rest ih =>
      obtain ⟨a, b⟩ := kv
      by_cases h : a = k
      · simp [setA, h, lookupA]
      · simp [setA, h, lookupA, ih]

theorem lookupA_setA_ne {α : Type} (l : List (String × α)) (k key : String)
    (v : α) (h : k ≠ key) : lookupA (setA l k v) key = lookupA l key := by
  induction l with
  | nil => simp [setA, lookupA, h]
  | cons kv rest ih =>
      obtain ⟨a, b⟩ := kv
      by_cases ha : a = k
      · subst ha
        simp [setA, lookupA, h]
      · simp [setA, ha, lookupA, ih]

theorem lookupA_removeA_self {α : Type} (l : List (String × α)) (k : String) :
    lookupA (removeA l k) k = none := by
  induction l with
  | nil => simp [removeA, lookupA]
  | cons kv rest ih =>
      obtain ⟨a, b⟩ := kv
      by_cases h : a = k
      · simpa [removeA, h] using ih
      · simpa [removeA, h, lookupA] using ih

theorem lookupA_filter_none {α : Type} (p : String × α → Bool)
    (l : List (String × α)) (k : String) (h : lookupA l k = none) :
    lookupA (l.filter p) k = none := by
  induction l with
  | nil => simp [lookupA]
  | cons kv rest ih =>
      obtain ⟨a, b⟩ := kv
      rw [lookupA] at h
      by_cases ha : a = k
      · simp [ha] at h
      · rw [if_neg ha] at h
        by_cases hp : p (a, b)
        · simp [List.filter_cons, hp, lookupA, ha, ih h]
        · simp [List.filter_cons, hp, ih h]

theorem countKey_setA_le {α : Type} (l : List (String × α)) (k : String)
    (v : α) (h : countKey l k ≤ 1) : countKey (setA l k v) k ≤ 1 := by
  induction l with
  | nil => simp [setA, countKey, List.countP_cons]
  | cons kv rest ih =>
      obtain ⟨a, b⟩ := kv
      by_cases ha : a = k
      · subst ha
        simpa [setA, countKey, List.countP_cons] using h
      · rw [countKey, List.filter_cons] at h
        rw [setA, if_neg ha, countKey, List.filter_cons]
        simp only [ha, decide_False] at h ⊢
        exact ih h

theorem customerJoin_readFail (st : ServerState) (sid : String)
    (p : JoinPayload) (now : Int) (wf : Bool) :
    customerJoin st sid p now true wf =
      ⟨st, [Emission.errorTo sid "Failed to join chat session"],
       [StoreOp.read p.convId]⟩ := rfl

theorem customerJoin_new_writeFail (st : ServerState) (sid : String)
    (p : JoinPayload) (now : Int) (h : readLogPure st.store p.convId = []) :
    customerJoin st sid p now false true =
      ⟨{ st with customers := setA st.customers sid ⟨p.convId, p.chatbotId, p.userId, p.customerEmail⟩ },
       [Emission.errorTo sid "Failed to join chat session"],
       [StoreOp.read p.convId, StoreOp.upsertJoin p.convId]⟩ := by
  unfold customerJoin getConversationMessages
  simp [h]

theorem customerJoin_store_or (st : ServerState) (sid : String)
    (p : JoinPayload) (now : Int) (rf wf : Bool) :
    (customerJoin st sid p now rf wf).state.store = st.store ∨
      (readLogPure st.store p.convId = [] ∧
        (customerJoin st sid p now rf wf).state.store =
          setA st.store p.convId
            (upsertJoinRow (lookupA st.store p.convId) p now)) := by
  cases rf
  · rcases hl : readLogPure st.store p.convId with _ | ⟨m, ms⟩
    · cases wf
      · right
        refine ⟨rfl, ?_⟩
        unfold customerJoin getConversationMessages
        simp [hl]
      · left
        unfold customerJoin getConversationMessages
        simp [hl]
    · left
      unfold customerJoin getConversationMessages
      simp [hl]
  · left
    rfl

theorem customerJoin_conversations_or (st : ServerState) (sid : String)
    (p : JoinPayload) (now : Int) (rf wf : Bool) :
    (customerJoin st sid p now rf wf).state.conversations = st.conversations ∨
      (readLogPure st.store p.convId = [] ∧
        (customerJoin st sid p now rf wf).state.conversations =
          setA st.conversations p.convId
            ⟨p.convId, p.chatbotId, p.customerEmail, now, none⟩) := by
  cases rf
  · rcases hl : readLogPure st.store p.convId with _ | ⟨m, ms⟩
    · cases wf
      · right
        refine ⟨rfl, ?_⟩
        unfold customerJoin getConversationMessages
        simp [hl]
      · left
        unfold customerJoin getConversationMessages
        simp [hl]
    · left
      unfold customerJoin getConversationMessages
      simp [hl]
  · left
    rfl

theorem agentJoin_fields (st : ServerState) (sid : String) (convId : String)
    (rf : Bool) :
    (agentJoin st sid convId rf).state.store = st.store ∧
    (agentJoin st sid convId rf).state.conversations = st.conversations := by
  cases rf <;> simp [agentJoin, getConversationMessages]

theorem messageSend_readFail (st : ServerState) (sid : String)
    (p : SendPayload) (now : Int) (wf : Bool) :
    messageSend st sid p now true wf =
      ⟨st, [Emission.errorTo sid "Failed to send message"],
       [StoreOp.read p.convId]⟩ := rfl

theorem messageSend_writeFail (st : ServerState) (sid : String)
    (p : SendPayload) (now : Int) :
    messageSend st sid p now false true =
      ⟨st, [Emission.errorTo sid "Failed to send message"],
       [StoreOp.read p.convId, StoreOp.upsertSend p.convId]⟩ := rfl

theorem messageSend_ok_store (st : ServerState) (sid : String)
    (p : SendPayload) (now : Int) :
    (messageSend st sid p now false false).state.store =
      setA st.store p.convId
        (upsertSendRow (lookupA st.store p.convId) p
          (readLogPure st.store p.convId ++ [⟨p.text, p.sender, now, p.convId⟩])) := by
  unfold messageSend getConversationMessages
  rcases h : lookupA st.conversations p.convId with _ | conv <;> simp [h]

theorem messageSend_ok_log (st : ServerState) (sid : String)
    (p : SendPayload) (now : Int) :
    readLogPure (messageSend st sid p now false false).state.store p.convId =
      readLogPure st.store p.convId ++ [⟨p.text, p.sender, now, p.convId⟩] := by
  rw [messageSend_ok_store]
  rcases h : lookupA st.store p.convId with _ | r <;>
    simp [readLogPure, lookupA_setA_self, upsertSendRow, h]

theorem messageSend_ok_absent (st : ServerState) (sid : String)
    (p : SendPayload) (now : Int)
    (h : lookupA st.conversations p.convId = none) :
    (messageSend st sid p now false false).state.conversations =
      st.conversations ∧
    (messageSend st sid p now false false).emissions =
      [Emission.messageReceived ("conv-" ++ p.convId)
        ⟨p.text, p.sender, now, p.convId⟩] := by
  unfold messageSend getConversationMessages
  simp [h]

theorem messageSend_ok_present (st : ServerState) (sid : String)
    (p : SendPayload) (now : Int) (conv : ConversationSummary)
    (h : lookupA st.conversations p.convId = some conv) :
    (messageSend st sid p now false false).state.conversations =
      setA st.conversations p.convId
        { conv with lastMessage := some ⟨p.text, p.sender, now, p.convId⟩,
                    timestamp := now } ∧
    (messageSend st sid p now false false).emissions =
      [Emission.messageReceived ("conv-" ++ p.convId)
        ⟨p.text, p.sender, now, p.convId⟩,
       Emission.chatUpdated
         ((setA st.conversations p.convId
           { conv with lastMessage := some ⟨p.text, p.sender, now, p.convId⟩,
                       timestamp := now }).map Prod.snd)] := by
  unfold messageSend getConversationMessages
  simp [h]

theorem disconnect_fields (st : ServerState) (sid : String) :
    (disconnect st sid).state.store = st.store ∧
    (disconnect st sid).state.conversations = st.conversations ∧
    (disconnect st sid).state.rooms = st.rooms := by
  unfold disconnect
  rcases h1 : lookupA st.customers sid with _ | c <;>
    simp [h1] <;>
    rcases h2 : lookupA st.agents sid with _ | a <;>
    simp [h2]

theorem readLogPure_setA_ne (store : List (String × StoreRow))
    (k c : String) (r : StoreRow) (h : k ≠ c) :
    readLogPure (setA store k r) c = readLogPure store c := by
  unfold readLogPure
  rw [lookupA_setA_ne _ _ _ _ h]

theorem evictionSweep_fields (st : ServerState) (now : Int) :
    (evictionSweep st now).state.store = st.store ∧
    (evictionSweep st now).state.conversations =
      st.conversations.filter
        (fun kv => !decide (kv.2.timestamp < now - 60 * 60 * 1000)) := by
  constructor <;> rfl

/-- One-step preservation of the key invariant behind claim C10: once a
conversation has a nonempty stored log and no entry in the in-memory index,
no single event re-adds it to the index (and its log stays nonempty). -/
theorem inv_preserved_step (c : String) (st : ServerState) (e : Event)
    (h1 : readLogPure st.store c ≠ [])
    (h2 : lookupA st.conversations c = none) :
    readLogPure (step st e).state.store c ≠ [] ∧
      lookupA (step st e).state.conversations c = none := by
  cases e with
  | evCustomerJoin sid p now rf wf =>
      constructor
      · rcases customerJoin_store_or st sid p now rf wf with h | ⟨he, h⟩
        · rw [step, h]
          exact h1
        · by_cases hc : p.convId = c
          · exact absurd (hc ▸ he) h1
          · rw [step, h, readLogPure_setA_ne _ _ _ _ hc]
            exact h1
      · rcases customerJoin_conversations_or st sid p now rf wf with h | ⟨he, h⟩
        · rw [step, h]
          exact h2
        · by_cases hc : p.convId = c
          · exact absurd (hc ▸ he) h1
          · rw [step, h, lookupA_setA_ne _ _ _ _ hc]
            exact h2
  | evAgentJoin sid convId rf =>
      rw [step, (agentJoin_fields st sid convId rf).1,
          (agentJoin_fields st sid convId rf).2]
      exact ⟨h1, h2⟩
  | evMessageSend sid p now rf wf =>
      cases rf
      · cases wf
        · constructor
          · by_cases hc : p.convId = c
            · rw [step, ← hc, messageSend_ok_log]
              simp
            · rw [step, messageSend_ok_store, readLogPure_setA_ne _ _ _ _ hc]
              exact h1
          · rcases hl : lookupA st.conversations p.convId with _ | conv
            · rw [step, (messageSend_ok_absent st sid p now hl).1]
              exact h2
            · by_cases hc : p.convId = c
              · rw [hc] at hl
                rw [hl] at h2
                exact absurd h2 (by simp)
              · rw [step, (messageSend_ok_present st sid p now conv hl).1,
                    lookupA_setA_ne _ _ _ _ hc]
                exact h2
        · rw [step, messageSend_writeFail]
          exact ⟨h1, h2⟩
      · rw [step, messageSend_readFail]
        exact ⟨h1, h2⟩
  | evDisconnect sid =>
      rw [step, (disconnect_fields st sid).1, (disconnect_fields st sid).2.1]
      exact ⟨h1, h2⟩
  | evSweep now =>
      rw [step, (evictionSweep_fields st now).1, (evictionSweep_fields st now).2]
      exact ⟨h1, lookupA_filter_none _ _ _ h2⟩

theorem customerJoin_countKey_store (st : ServerState) (sid : String)
    (p : JoinPayload) (now : Int) (rf wf : Bool)
    (h : countKey st.store p.convId ≤ 1) :
    countKey (customerJoin st sid p now rf wf).state.store p.convId ≤ 1 := by
  rcases customerJoin_store_or st sid p now rf wf with hh | ⟨_, hh⟩
  · rw [hh]
    exact h
  · rw [hh]
    exact countKey_setA_le _ _ _ h

theorem customerJoin_countKey_conversations (st : ServerState) (sid : String)
    (p : JoinPayload) (now : Int) (rf wf : Bool)
    (h : countKey st.conversations p.convId ≤ 1) :
    countKey (customerJoin st sid p now rf wf).state.conversations p.convId ≤ 1 := by
  rcases customerJoin_conversations_or st sid p now rf wf with hh | ⟨_, hh⟩
  · rw [hh]
    exact h
  · rw [hh]
    exact countKey_setA_le _ _ _ h

/-- C1: for every `message:send` event whose store write fails (the read
succeeded, the upsert errored), the handler emits only the generic error
event to the sending connection — in particular no `message:received` is
published to the conversation topic and no `chat:updated` is broadcast —
and the entire server state (store, index, sessions, rooms) is unchanged. -/
theorem C1_no_broadcast_without_persistence (st : ServerState) (sid : String)
    (p : SendPayload) (now : Int) :
    (messageSend st sid p now false true).emissions =
      [Emission.errorTo sid "Failed to send message"] ∧
    (messageSend st sid p now false true).state = st :=
  ⟨rfl, rfl⟩

/-- C2 counterexample: the claim "the Session Registry is left exactly as it
was on any store failure" is false for `customer:join`: from the empty state,
a join whose conversation-creating upsert fails still leaves the freshly
registered CustomerSession in the registry (the handler stores the session
before the store write), even though only the generic error is emitted. -/
theorem C2_counterexample :
    (customerJoin st0 "s1" pJ1 0 false true).state.customers ≠ st0.customers ∧
    (customerJoin st0 "s1" pJ1 0 false true).emissions =
      [Emission.errorTo "s1" "Failed to join chat session"] := by
  constructor
  · decide
  · decide

/-- C2 amended: on a store failure only a generic error event is emitted to
the originating connection, and `message:send`, `agent:join` and the read
failure of `customer:join` leave the whole state unchanged; but a
`customer:join` whose upsert fails (which happens only when the read returned
an empty log) keeps the CustomerSession it registered before the write in the
Session Registry, while the Conversation Index, the store, the agents and the
rooms are unchanged. -/
theorem C2_store_failure_handling (st : ServerState) (sid : String)
    (p : SendPayload) (q : JoinPayload) (convId : String) (now : Int) :
    (messageSend st sid p now true false).state = st ∧
    (messageSend st sid p now true false).emissions =
      [Emission.errorTo sid "Failed to send message"] ∧
    (messageSend st sid p now false true).state = st ∧
    (messageSend st sid p now false true).emissions =
      [Emission.errorTo sid "Failed to send message"] ∧
    (agentJoin st sid convId true).state = st ∧
    (agentJoin st sid convId true).emissions =
      [Emission.errorTo sid "Failed to join conversation"] ∧
    (customerJoin st sid q now true false).state = st ∧
    (customerJoin st sid q now true false).emissions =
      [Emission.errorTo sid "Failed to join chat session"] ∧
    (readLogPure st.store q.convId = [] →
      (customerJoin st sid q now false true).state.conversations =
        st.conversations ∧
      (customerJoin st sid q now false true).state.store = st.store ∧
      (customerJoin st sid q now false true).state.agents = st.agents ∧
      (customerJoin st sid q now false true).state.rooms = st.rooms ∧
      (customerJoin st sid q now false true).state.customers =
        setA st.customers sid ⟨q.convId, q.chatbotId, q.userId, q.customerEmail⟩ ∧
      (customerJoin st sid q now false true).emissions =
        [Emission.errorTo sid "Failed to join chat session"]) := by
  refine ⟨rfl, rfl, rfl, rfl, rfl, rfl, rfl, rfl, ?_⟩
  intro h
  rw [customerJoin_new_writeFail st sid q now h]
  exact ⟨rfl, rfl, rfl, rfl, rfl, rfl⟩

theorem C2_store_failure_handling_witness :
    (customerJoin st0 "s1" pJ1 0 false true).state.customers =
      setA st0.customers "s1" ⟨"c1", "b1", "u1", "e1"⟩ ∧
    (customerJoin st0 "s1" pJ1 0 false true).emissions =
      [Emission.errorTo "s1" "Failed to join chat session"] :=
  ⟨((C2_store_failure_handling st0 "s1" pS1 pJ1 "c9" 0).2.2.2.2.2.2.2.2
      rfl).2.2.2.2.1,
   ((C2_store_failure_handling st0 "s1" pS1 pJ1 "c9" 0).2.2.2.2.2.2.2.2
      rfl).2.2.2.2.2⟩

/-- C3 counterexample: joining the same conversation from two different
connections, each join fully completing and succeeding, runs the
conversation-creating upsert twice, refuting "the createConversation store
write runs at most once for that conversationId": after the first join the
stored log is still empty, so the second join again classifies the
conversation as new. -/
theorem C3_counterexample :
    countCreates (joinOnce.storeOps ++ joinAgain.storeOps) "c1" = 2 ∧
    ¬ countCreates (joinOnce.storeOps ++ joinAgain.storeOps) "c1" ≤ 1 := by
  constructor
  · decide
  · decide

/-- C3 amended: for any two `customer:join` events carrying the same
conversationId from different connections, at most one store record and at
most one ConversationSummary entry for that id exist afterwards (the upsert
is keyed on the conversation id, so re-running it never duplicates a
record); the conversation-creating upsert itself, however, may run on both
joins. -/
theorem C3_join_idempotent_records (st : ServerState) (s1 s2 : String)
    (p : JoinPayload) (n1 n2 : Int) (rf1 wf1 rf2 wf2 : Bool)
    (_hs : s1 ≠ s2)
    (h1 : countKey st.store p.convId ≤ 1)
    (h2 : countKey st.conversations p.convId ≤ 1) :
    countKey (customerJoin (customerJoin st s1 p n1 rf1 wf1).state
      s2 p n2 rf2 wf2).state.store p.convId ≤ 1 ∧
    countKey (customerJoin (customerJoin st s1 p n1 rf1 wf1).state
      s2 p n2 rf2 wf2).state.conversations p.convId ≤ 1 :=
  ⟨customerJoin_countKey_store _ _ _ _ _ _
     (customerJoin_countKey_store _ _ _ _ _ _ h1),
   customerJoin_countKey_conversations _ _ _ _ _ _
     (customerJoin_countKey_conversations _ _ _ _ _ _ h2)⟩

theorem C3_join_idempotent_records_witness :
    countKey (customerJoin (customerJoin st0 "s1" pJ1 0 false false).state
      "s2" pJ1 1 false false).state.store "c1" ≤ 1 ∧
    countKey (customerJoin (customerJoin st0 "s1" pJ1 0 false false).state
      "s2" pJ1 1 false false).state.conversations "c1" ≤ 1 :=
  C3_join_idempotent_records st0 "s1" "s2" pJ1 0 1 false false false false
    (by decide) (by decide) (by decide)

/-- C4 counterexample: a `message:send` whose store write succeeds but whose
conversation is absent from the in-memory index (here: a conversation with
existing stored history after a restart) broadcasts `message:received` but
emits no `chat:updated` at all, refuting the claim that every successful
send rebroadcasts the index snapshot to dashboard subscribers. -/
theorem C4_counterexample :
    (messageSend stExisting "s1" pS1 100 false false).emissions =
      [Emission.messageReceived "conv-c1" ⟨"hi", "customer", 100, "c1"⟩] ∧
    hasChatUpdated (messageSend stExisting "s1" pS1 100 false false).emissions
      = false ∧
    lookupA stExisting.conversations "c1" = none := by
  refine ⟨?_, ?_, rfl⟩
  · decide
  · decide

/-- C4 amended: for every `message:send` whose store calls succeed, the
handler first broadcasts the `message:received` event carrying the built
Message to the conversation topic and appends that Message to the stored
log; when the conversation is present in the in-memory index it sets that
entry's `lastMessage` to the broadcast Message and its timestamp to `now`,
and then emits exactly one `chat:updated` whose payload is the snapshot of
the updated index; when the conversation is absent from the index, the
index is left untouched and no `chat:updated` is emitted at all. -/
theorem C4_send_success_broadcasts (st : ServerState) (sid : String)
    (p : SendPayload) (now : Int) :
    (messageSend st sid p now false false).emissions.head? =
      some (Emission.messageReceived ("conv-" ++ p.convId)
        ⟨p.text, p.sender, now, p.convId⟩) ∧
    readLogPure (messageSend st sid p now false false).state.store p.convId =
      readLogPure st.store p.convId ++ [⟨p.text, p.sender, now, p.convId⟩] ∧
    (∀ conv : ConversationSummary,
      lookupA st.conversations p.convId = some conv →
        (messageSend st sid p now false false).state.conversations =
          setA st.conversations p.convId
            { conv with lastMessage := some ⟨p.text, p.sender, now, p.convId⟩,
                        timestamp := now } ∧
        lookupA (messageSend st sid p now false false).state.conversations
            p.convId =
          some { conv with
                 lastMessage := some ⟨p.text, p.sender, now, p.convId⟩,
                 timestamp := now } ∧
        (messageSend st sid p now false false).emissions =
          [Emission.messageReceived ("conv-" ++ p.convId)
            ⟨p.text, p.sender, now, p.convId⟩,
           Emission.chatUpdated
             ((messageSend st sid p now false false).state.conversations.map
               Prod.snd)]) ∧
    (lookupA st.conversations p.convId = none →
      (messageSend st sid p now false false).state.conversations =
        st.conversations ∧
      (messageSend st sid p now false false).emissions =
        [Emission.messageReceived ("conv-" ++ p.convId)
          ⟨p.text, p.sender, now, p.convId⟩]) := by
  refine ⟨?_, messageSend_ok_log st sid p now, ?_, ?_⟩
  · rcases h : lookupA st.conversations p.convId with _ | conv
    · rw [(messageSend_ok_absent st sid p now h).2]
      rfl
    · rw [(messageSend_ok_present st sid p now conv h).2]
      rfl
  · intro conv h
    refine ⟨(messageSend_ok_present st sid p now conv h).1, ?_, ?_⟩
    · rw [(messageSend_ok_present st sid p now conv h).1]
      exact lookupA_setA_self _ _ _
    · rw [(messageSend_ok_present st sid p now conv h).2,
          (messageSend_ok_present st sid p now conv h).1]
  · intro h
    exact messageSend_ok_absent st sid p now h

theorem C4_send_success_broadcasts_witness :
    (messageSend stIndexed "s1" pS1 100 false false).state.conversations =
      setA stIndexed.conversations "c1"
        { sum1 with lastMessage := some ⟨"hi", "customer", 100, "c1"⟩,
                    timestamp := 100 } ∧
    (messageSend stIndexed "s1" pS1 100 false false).emissions =
      [Emission.messageReceived "conv-c1" ⟨"hi", "customer", 100, "c1"⟩,
       Emission.chatUpdated
         ((messageSend stIndexed "s1" pS1 100
           false false).state.conversations.map Prod.snd)] ∧
    (messageSend stExisting "s1" pS1 100 false false).state.conversations =
      stExisting.conversations :=
  ⟨((C4_send_success_broadcasts stIndexed "s1" pS1 100).2.2.1 sum1 rfl).1,
   ((C4_send_success_broadcasts stIndexed "s1" pS1 100).2.2.1 sum1 rfl).2.2,
   ((C4_send_success_broadcasts stExisting "s1" pS1 100).2.2.2 rfl).1⟩

/-- C5: a sequence of `message:send` events from one connection to the same
conversation, each issued only after the previous one's handling completed
and with every store call succeeding (no other writers), leaves the stored
MessageLog equal to the initial log followed by the sent messages in issue
order: every send appends to the log it read and never deletes or reorders
existing entries. -/
theorem C5_sequential_sends_ordered (st : ServerState) (sid convId : String)
    (items : List SendItem) :
    readLogPure (sendSeq st sid convId items).store convId =
      readLogPure st.store convId ++ items.map (itemMessage convId) := by
  induction items generalizing st with
  | nil => simp [sendSeq]
  | cons it rest ih =>
      rw [sendSeq, ih, messageSend_ok_log]
      simp [itemMessage]

/-- C6: a sweep of the eviction timer at time `now` (threshold one hour)
keeps a summary in the index exactly when it was there before and its
lastActivityTimestamp does not predate `now` minus one hour — so every
strictly older summary (such as one from two hours ago) is removed and every
summary at or after the threshold (such as one from 30 minutes ago)
survives — and the sweep performs no store operation and leaves the durable
store untouched. -/
theorem C6_eviction_threshold (st : ServerState) (now : Int) (cid : String)
    (conv : ConversationSummary) :
    ((cid, conv) ∈ (evictionSweep st now).state.conversations ↔
      ((cid, conv) ∈ st.conversations ∧
        ¬ conv.timestamp < now - 60 * 60 * 1000)) ∧
    (evictionSweep st now).state.store = st.store ∧
    (evictionSweep st now).storeOps = [] := by
  refine ⟨?_, rfl, rfl⟩
  simp [evictionSweep, List.mem_filter]

/-- C7: the Message stored and broadcast by `message:send` carries the
server-assigned handling-time timestamp `now`, and the handler's entire
result is unchanged when only the client-supplied `timestamp` field of the
payload changes — the client timestamp has no influence. -/
theorem C7_server_timestamp_authoritative (st : ServerState) (sid : String)
    (now : Int) (rf wf : Bool)
    (convId chatbotId userId text sender : String) (t1 t2 : Int) :
    messageSend st sid ⟨convId, chatbotId, userId, text, sender, t1⟩
        now rf wf =
      messageSend st sid ⟨convId, chatbotId, userId, text, sender, t2⟩
        now rf wf ∧
    (messageSend st sid ⟨convId, chatbotId, userId, text, sender, t1⟩
        now false false).emissions.head? =
      some (Emission.messageReceived ("conv-" ++ convId)
        ⟨text, sender, now, convId⟩) := by
  constructor
  · rfl
  · rcases h : lookupA st.conversations convId with _ | conv
    · rw [(messageSend_ok_absent st sid _ now h).2]
      rfl
    · rw [(messageSend_ok_present st sid _ now conv h).2]
      rfl

/-- C8: reading the log of a conversation with no store record returns an
empty message log (a success, not an error), and the read fails exactly when
the backing store call itself fails. -/
theorem C8_readLog_missing_row_empty (store : List (String × StoreRow))
    (convId : String) :
    (lookupA store convId = none →
      getConversationMessages false store convId = Except.ok []) ∧
    getConversationMessages true store convId =
      Except.error "store read error" ∧
    ∀ rf : Bool, isOkE (getConversationMessages rf store convId) = !rf := by
  refine ⟨?_, rfl, ?_⟩
  · intro h
    simp [getConversationMessages, readLogPure, h]
  · intro rf
    cases rf <;> rfl

theorem C8_readLog_missing_row_empty_witness :
    getConversationMessages false [] "c1" = Except.ok [] ∧
    isOkE (getConversationMessages true [] "c1") = !true :=
  ⟨(C8_readLog_missing_row_empty [] "c1").1 rfl,
   (C8_readLog_missing_row_empty [] "c1").2.2 true⟩

/-- C9: after a disconnect for connection sid — whether it held a customer
session, an agent session, both or neither — the registry lookups for sid
return neither record; the handler emits nothing, touches no store, and is a
no-op on the whole state when sid held neither record. -/
theorem C9_disconnect_cleanup (st : ServerState) (sid : String) :
    lookupA (disconnect st sid).state.customers sid = none ∧
    lookupA (disconnect st sid).state.agents sid = none ∧
    (lookupA st.customers sid = none → lookupA st.agents sid = none →
      (disconnect st sid).state = st) ∧
    (disconnect st sid).emissions = [] ∧
    (disconnect st sid).storeOps = [] := by
  refine ⟨?_, ?_, ?_, rfl, rfl⟩
  · unfold disconnect
    rcases h1 : lookupA st.customers sid with _ | c
    · rcases h2 : lookupA st.agents sid with _ | a <;> simp [h1, h2]
    · rcases h2 : lookupA st.agents sid with _ | a <;>
        simp [h1, h2, lookupA_removeA_self]
  · unfold disconnect
    rcases h1 : lookupA st.customers sid with _ | c
    · rcases h2 : lookupA st.agents sid with _ | a <;>
        simp [h1, h2, lookupA_removeA_self]
    · rcases h2 : lookupA st.agents sid with _ | a <;>
        simp [h1, h2, lookupA_removeA_self]
  · intro hc ha
    unfold disconnect
    simp [hc, ha]

theorem C9_disconnect_cleanup_witness :
    (disconnect st0 "s1").state = st0 :=
  (C9_disconnect_cleanup st0 "s1").2.2.1 rfl rfl

/-- C10: summaries enter the in-memory index only through a `customer:join`
whose store read returned an empty log; `message:send` only mutates an entry
already present and the eviction sweep only deletes — hence once a
conversation has a nonempty stored history and is absent from the index
(after an eviction or a restart), no sequence of further events re-adds it
to the index (and its stored log stays nonempty). -/
theorem C10_no_index_readd (c : String) (st : ServerState) (es : List Event)
    (h1 : readLogPure st.store c ≠ [])
    (h2 : lookupA st.conversations c = none) :
    readLogPure (runEvents st es).store c ≠ [] ∧
      lookupA (runEvents st es).conversations c = none := by
  induction es generalizing st with
  | nil => exact ⟨h1, h2⟩
  | cons e rest ih =>
      rw [runEvents]
      have h := inv_preserved_step c st e h1 h2
      exact ih _ h.1 h.2

theorem C10_no_index_readd_witness :
    readLogPure (runEvents stExisting evs10).store "c1" ≠ [] ∧
      lookupA (runEvents stExisting evs10).conversations "c1" = none :=
  C10_no_index_readd "c1" stExisting evs10 (by decide) rfl

end LiveChat
